import Mathlib

/-!
Formal model of the acts connectivity controllers under verification:
the `PacketSender` controller and its background worker loop
(`acts/controllers/packet_sender.py`), the ARP and DHCP-offer packet
generators from the same module, and the `generate_random_password`
helper from `acts/controllers/ap_lib/hostapd_utils.py`.

Python object state is modelled by explicit records; a method that can
raise returns the (possibly updated) record together with an
`Except`-style result, with mutations applied exactly up to the point
where the source raises.  Transport behaviour (the scapy send
primitives) is modelled by an environment function giving the outcome
of each iteration's send attempt.
-/

namespace Acts

/-! ## Module constants of packet_sender.py -/

def GET_FROM_LOCAL_INTERFACE : String := "get_local"

def MAC_BROADCAST : String := "ff:ff:ff:ff:ff:ff"

def IPV4_BROADCAST : String := "255.255.255.255"

def ARP_DST : String := "00:00:00:00:00:00"

def DHCP_OFFER_OP : Nat := 2

def DHCP_OFFER_SRC_PORT : Nat := 67

def DHCP_OFFER_DST_PORT : Nat := 68

def DHCP_TRANS_ID : Nat := 0x01020304

/-! ## Errors

`PacketSenderError` is the single exception class of the module; we keep
the three distinct raise sites apart.  `PyExn` is an exception that
escapes to the caller: either a `PacketSenderError` or an arbitrary
exception raised by the transport layer and not caught by the method. -/

inductive PacketSenderError
  | noPacket
  | activeThread
  | noActiveThread
deriving DecidableEq, Repr

inductive PyExn
  | packetSenderError (e : PacketSenderError)
  | otherExn
deriving DecidableEq, Repr

/-! ## Transport environment

The outcome of one iteration of `scapy.sendp` / `scapy.srp1` plus the
following `time.sleep`, as observed inside `send_ntimes` and
`send_receive_ntimes`: success, a raised `socket.error` (caught there),
or any other raised exception (not caught there). -/

inductive SendOutcome
  | ok
  | sockErr
  | otherErr
deriving DecidableEq, Repr

/-! ## ThreadSendPacket and PacketSender state -/

structure ThreadSendPacket (P : Type) where
  packet : P
  interval : Nat
  interface : String
deriving DecidableEq, Repr

structure PacketSender (P : Type) where
  packet : Option P
  thread_active : Bool
  thread_send : Option (ThreadSendPacket P)
  stop_signal : Bool
  interface : String
deriving DecidableEq, Repr

/-- `PacketSender.__init__(ifname)`. -/
def PacketSender.mkSender (P : Type) (ifname : String) : PacketSender P :=
  { packet := none
    thread_active := false
    thread_send := none
    stop_signal := false
    interface := ifname }

/-- The `for _ in range(ntimes)` loop of `send_ntimes`, starting at
iteration index `k` with `n` iterations left.  Returns how many packets
were transmitted, and whether the loop finished normally (including the
caught-`socket.error` early return) or let an exception escape. -/
def send_loop (env : Nat → SendOutcome) : Nat → Nat → Nat × Except PyExn Unit
  | _, 0 => (0, Except.ok ())
  | k, n + 1 =>
    match env k with
    | SendOutcome.ok =>
      let r := send_loop env (k + 1) n
      (r.1 + 1, r.2)
    | SendOutcome.sockErr => (0, Except.ok ())
    | SendOutcome.otherErr => (0, Except.error PyExn.otherExn)

/-- The `for _ in range(ntimes)` loop of `send_receive_ntimes` (which
uses `scapy.srp1` in place of `scapy.sendp`; the reply is discarded). -/
def send_receive_loop (env : Nat → SendOutcome) : Nat → Nat → Nat × Except PyExn Unit
  | _, 0 => (0, Except.ok ())
  | k, n + 1 =>
    match env k with
    | SendOutcome.ok =>
      let r := send_receive_loop env (k + 1) n
      (r.1 + 1, r.2)
    | SendOutcome.sockErr => (0, Except.ok ())
    | SendOutcome.otherErr => (0, Except.error PyExn.otherExn)

/-- `PacketSender.send_ntimes(packet, ntimes, interval)`.  The method
never assigns any attribute of `self`, so the sender record is returned
unchanged; the `Nat` component counts transmitted packets. -/
def PacketSender.send_ntimes {P : Type} (env : Nat → SendOutcome)
    (s : PacketSender P) (packet : Option P) (ntimes interval : Nat) :
    PacketSender P × Nat × Except PyExn Unit :=
  match packet with
  | none => (s, 0, Except.error (PyExn.packetSenderError PacketSenderError.noPacket))
  | some _ =>
    let r := send_loop env 0 ntimes
    (s, r.1, r.2)

/-- `PacketSender.send_receive_ntimes(packet, ntimes, interval)`. -/
def PacketSender.send_receive_ntimes {P : Type} (env : Nat → SendOutcome)
    (s : PacketSender P) (packet : Option P) (ntimes interval : Nat) :
    PacketSender P × Nat × Except PyExn Unit :=
  match packet with
  | none => (s, 0, Except.error (PyExn.packetSenderError PacketSenderError.noPacket))
  | some _ =>
    let r := send_receive_loop env 0 ntimes
    (s, r.1, r.2)

/-- `PacketSender.start_sending(packet, interval)`: raises if the packet
is unset, then raises if a worker is already active; otherwise records
the spawned `ThreadSendPacket` worker (bound to the shared stop signal,
the packet, the interval and the sender's interface) and marks the
sender active.  Both raise sites occur before any mutation. -/
def PacketSender.start_sending {P : Type} (s : PacketSender P)
    (packet : Option P) (interval : Nat) :
    PacketSender P × Except PyExn Unit :=
  match packet with
  | none => (s, Except.error (PyExn.packetSenderError PacketSenderError.noPacket))
  | some pkt =>
    if s.thread_active then
      (s, Except.error (PyExn.packetSenderError PacketSenderError.activeThread))
    else
      ({ s with
          thread_send := some ⟨pkt, interval, s.interface⟩
          thread_active := true },
        Except.ok ())

/-- `PacketSender.stop_sending(ignore_status)`: on an idle sender it
returns unchanged when `ignore_status` and raises otherwise; on an
active sender it sets the stop signal, joins the worker (force
termination past the join only logs a warning), then clears the stop
signal, drops the worker handle and marks the sender inactive. -/
def PacketSender.stop_sending {P : Type} (s : PacketSender P)
    (ignore_status : Bool) :
    PacketSender P × Except PyExn Unit :=
  if !s.thread_active then
    if ignore_status then (s, Except.ok ())
    else (s, Except.error (PyExn.packetSenderError PacketSenderError.noActiveThread))
  else
    ({ s with
        stop_signal := false
        thread_send := none
        thread_active := false },
      Except.ok ())

/-! ## The worker loop of ThreadSendPacket.run

One iteration of the `while True` loop: poll the stop signal; if set,
terminate; otherwise `scapy.sendp` the bound packet and `time.sleep`
the bound interval, where any raised exception is caught by the
`except Exception` clause and terminates the loop.  The environment
gives for each iteration the polled signal value and whether the
transmit/sleep pair succeeded, raised during the transmit, or raised
during the sleep (after a completed transmit). -/

inductive WorkerOutcome
  | ok
  | exnInSend
  | exnInSleep
deriving DecidableEq, Repr

inductive RunState
  | running (t : Nat)
  | stoppedSignal (t : Nat)
  | stoppedExn (t : Nat)
deriving DecidableEq, Repr

inductive RunEvent
  | send
deriving DecidableEq, Repr

/-- One step of `ThreadSendPacket.run`, with the list of packets
transmitted during the step; `none` means the state is terminal. -/
def ThreadSendPacket.run_step (env : Nat → Bool × WorkerOutcome) :
    RunState → Option (RunState × List RunEvent)
  | RunState.running t =>
    match env t with
    | (true, _) => some (RunState.stoppedSignal t, [])
    | (false, WorkerOutcome.ok) => some (RunState.running (t + 1), [RunEvent.send])
    | (false, WorkerOutcome.exnInSend) => some (RunState.stoppedExn t, [])
    | (false, WorkerOutcome.exnInSleep) => some (RunState.stoppedExn t, [RunEvent.send])
  | RunState.stoppedSignal _ => none
  | RunState.stoppedExn _ => none

/-! ## Packet generators

Scapy layers are modelled as records of the fields the module sets; a
packet is the record of its layers in stacking order. -/

structure ARP where
  op : String
  pdst : String
  psrc : String
  hwdst : String
  hwsrc : String
deriving DecidableEq, Repr

structure Ether where
  src : String
  dst : String
deriving DecidableEq, Repr

structure ArpPacket where
  ether : Ether
  arp : ARP
deriving DecidableEq, Repr

structure ArpGenerator where
  packet : Option ArpPacket
  src_mac : String
  dst_ipv4 : String
  src_ipv4 : String
deriving DecidableEq, Repr

/-- `ArpGenerator.__init__(**config_params)`: fields equal to the
sentinel `"get_local"` are resolved through the interface-query
primitives (`scapy.get_if_hwaddr`, `scapy.get_if_addr`), passed here as
oracles; otherwise the explicit value is kept. -/
def ArpGenerator.mkGen (get_if_hwaddr get_if_addr : String → String)
    (interf src_mac src_ipv4 dst_ipv4 : String) : ArpGenerator :=
  { packet := none
    src_mac := if src_mac == GET_FROM_LOCAL_INTERFACE then get_if_hwaddr interf else src_mac
    dst_ipv4 := dst_ipv4
    src_ipv4 := if src_ipv4 == GET_FROM_LOCAL_INTERFACE then get_if_addr interf else src_ipv4 }

/-- `ArpGenerator.generate(op, ip_dst, ip_src, hwsrc, hwdst, eth_dst)`:
unset overrides fall back to the values resolved at construction time
(or the `ARP_DST` / `MAC_BROADCAST` defaults); the built packet is
cached on the instance and returned. -/
def ArpGenerator.generate (g : ArpGenerator) (op : String)
    (ip_dst ip_src hwsrc hwdst eth_dst : Option String) :
    ArpGenerator × ArpPacket :=
  let hw_src := hwsrc.getD g.src_mac
  let hw_dst := hwdst.getD ARP_DST
  let ipv4_dst := ip_dst.getD g.dst_ipv4
  let ipv4_src := ip_src.getD g.src_ipv4
  let ip4 : ARP := { op := op, pdst := ipv4_dst, psrc := ipv4_src, hwdst := hw_dst, hwsrc := hw_src }
  let mac_dst := eth_dst.getD MAC_BROADCAST
  let ethernet : Ether := { src := g.src_mac, dst := mac_dst }
  let pkt : ArpPacket := { ether := ethernet, arp := ip4 }
  ({ g with packet := some pkt }, pkt)

structure DHCPLayer where
  message_type : String
  subnet_mask : String
  server_id : String
deriving DecidableEq, Repr

structure BOOTP where
  op : Nat
  yiaddr : String
  siaddr : String
  giaddr : String
  chaddr : List Nat
  xid : Nat
deriving DecidableEq, Repr

structure UDPLayer where
  sport : Nat
  dport : Nat
deriving DecidableEq, Repr

structure IPLayer where
  src : String
  dst : String
deriving DecidableEq, Repr

structure DhcpPacket where
  ether : Ether
  ip4 : IPLayer
  udp : UDPLayer
  bootp : BOOTP
  dhcp : DHCPLayer
deriving DecidableEq, Repr

structure DhcpOfferGenerator where
  packet : Option DhcpPacket
  subnet_mask : String
  dst_mac : String
  src_mac : String
  dst_ipv4 : String
  src_ipv4 : String
  gw_ipv4 : String
deriving DecidableEq, Repr

def hexDigitVal (c : Char) : Nat :=
  if c.isDigit then c.toNat - 48
  else if 97 ≤ c.toNat ∧ c.toNat ≤ 102 then c.toNat - 87
  else if 65 ≤ c.toNat ∧ c.toNat ≤ 70 then c.toNat - 55
  else 0

def parseHexNat (s : String) : Nat :=
  s.foldl (fun acc c => acc * 16 + hexDigitVal c) 0

/-- `scapy.mac2str`: the colon-separated hex mac as its byte values. -/
def mac2str (mac : String) : List Nat :=
  (mac.splitOn ":").map parseHexNat

/-- `DhcpOfferGenerator.__init__(**config_params)`. -/
def DhcpOfferGenerator.mkGen (get_if_hwaddr get_if_addr : String → String)
    (interf subnet_mask dst_mac src_mac src_ipv4 dst_ipv4 gw_ipv4 : String) :
    DhcpOfferGenerator :=
  { packet := none
    subnet_mask := subnet_mask
    dst_mac := dst_mac
    src_mac := if src_mac == GET_FROM_LOCAL_INTERFACE then get_if_hwaddr interf else src_mac
    dst_ipv4 := dst_ipv4
    src_ipv4 := if src_ipv4 == GET_FROM_LOCAL_INTERFACE then get_if_addr interf else src_ipv4
    gw_ipv4 := gw_ipv4 }

/-- `DhcpOfferGenerator.generate(cha_mac, dst_ip)`. -/
def DhcpOfferGenerator.generate (g : DhcpOfferGenerator)
    (cha_mac dst_ip : Option String) :
    DhcpOfferGenerator × DhcpPacket :=
  let dhcp : DHCPLayer := { message_type := "offer", subnet_mask := g.subnet_mask, server_id := g.src_ipv4 }
  let sta_hw := cha_mac.getD g.dst_mac
  let sta_ip := dst_ip.getD g.dst_ipv4
  let bootp : BOOTP :=
    { op := DHCP_OFFER_OP
      yiaddr := sta_ip
      siaddr := g.src_ipv4
      giaddr := g.gw_ipv4
      chaddr := mac2str sta_hw
      xid := DHCP_TRANS_ID }
  let udp : UDPLayer := { sport := DHCP_OFFER_SRC_PORT, dport := DHCP_OFFER_DST_PORT }
  let ip4 : IPLayer := { src := g.src_ipv4, dst := IPV4_BROADCAST }
  let ethernet : Ether := { src := g.src_mac, dst := MAC_BROADCAST }
  let pkt : DhcpPacket := { ether := ethernet, ip4 := ip4, udp := udp, bootp := bootp, dhcp := dhcp }
  ({ g with packet := some pkt }, pkt)

/-! ## hostapd_utils.generate_random_password

The password helper lives in `ap_lib/hostapd_utils.py`; its length
constants come from `hostapd_constants` and the string generators from
`acts.utils`, neither of which is among the sources. -/

/-- Modelled from the spec: `hostapd_constants.WEP_STRING`, the
lower-case security-mode name the WEP comparison is made against. -/
def WEP_STRING : String := "wep"

/-- Modelled from the spec: `hostapd_constants.WEP_DEFAULT_STR_LENGTH`;
the docstring of `generate_random_password` states the WEP default
length is 13. -/
def WEP_DEFAULT_STR_LENGTH : Nat := 13

/-- Modelled from the spec: `hostapd_constants.MIN_WPA_PSK_LENGTH`; the
docstring of `generate_random_password` states the default length is 8. -/
def MIN_WPA_PSK_LENGTH : Nat := 8

/-- Python truthiness of an optional int (`None` and `0` are falsy). -/
def truthyNat : Option Nat → Bool
  | none => false
  | some n => n != 0

/-- Python truthiness of an optional string (`None` and `""` are falsy). -/
def truthyStr : Option String → Bool
  | none => false
  | some s => s != ""

/-- Python `str.lower()`, character-wise over the string's data. -/
def str_lower (s : String) : String :=
  String.mk (s.data.map Char.toLower)

/-- A stand-in random-string generator.  Modelled from the spec:
`acts.utils.rand_ascii_str` / `rand_hex_str` return a random string of
the requested length; only the length is relevant here. -/
def rand_str_stub (n : Nat) : String :=
  String.mk (List.replicate n 'a')

/-- `hostapd_utils.generate_random_password(security_mode, length, hex)`,
parametrised by the two delegated string generators. -/
def generate_random_password (rand_hex_str rand_ascii_str : Nat → String)
    (security_mode : Option String) (length : Option Nat)
    ( hex : Option Nat) : String :=
  let generator_func := if truthyNat hex then rand_hex_str else rand_ascii_str
  if truthyNat length then generator_func (length.getD 0)
  else if truthyStr security_mode && (str_lower (security_mode.getD "") == WEP_STRING) then
    generator_func WEP_DEFAULT_STR_LENGTH
  else
    generator_func MIN_WPA_PSK_LENGTH

/-! ## Concrete states and environments used by the witnesses -/

/-- A sender whose background worker is active. -/
def sender_active_example : PacketSender Nat :=
  { packet := none
    thread_active := true
    thread_send := some ⟨5, 1, "eth0"⟩
    stop_signal := false
    interface := "eth0" }

/-- Transport environment with every iteration succeeding. -/
def env_all_ok : Nat → SendOutcome := fun _ => SendOutcome.ok

/-- Transport environment raising `socket.error` from iteration 2 on. -/
def env_sock_at2 : Nat → SendOutcome :=
  fun t => if t < 2 then SendOutcome.ok else SendOutcome.sockErr

/-- Transport environment raising a non-socket exception from iteration 2 on. -/
def env_other_at2 : Nat → SendOutcome :=
  fun t => if t < 2 then SendOutcome.ok else SendOutcome.otherErr

/-- Transport environment raising `socket.error` from iteration 1 on. -/
def env_sock_at1 : Nat → SendOutcome :=
  fun t => if t < 1 then SendOutcome.ok else SendOutcome.sockErr

/-- Worker environment exercising all four loop iteration shapes. -/
def worker_env_example : Nat → Bool × WorkerOutcome :=
  fun t =>
    if t == 0 then (true, WorkerOutcome.ok)
    else if t == 1 then (false, WorkerOutcome.ok)
    else if t == 2 then (false, WorkerOutcome.exnInSend)
    else (false, WorkerOutcome.exnInSleep)

/-- Worker environment whose transmit always raises. -/
def worker_env_exn : Nat → Bool × WorkerOutcome :=
  fun _ => (false, WorkerOutcome.exnInSend)

/-- The `ArpGenerator` of the spec scenario: explicit source mac,
source ip and destination ip, no `"get_local"` resolution (the
interface-query oracles are never consulted). -/
def arp_gen_example : ArpGenerator :=
  ArpGenerator.mkGen (fun _ => "") (fun _ => "")
    "eth0" "aa:bb:cc:dd:ee:ff" "10.0.0.1" "10.0.0.2"

/-! ## Loop lemmas -/

theorem send_loop_all_ok (env : Nat → SendOutcome) :
    ∀ n k, (∀ j, j < n → env (k + j) = SendOutcome.ok) →
      send_loop env k n = (n, Except.ok ()) := by
  intro n
  induction n with
  | zero => intro k _; rfl
  | succ m ih =>
    intro k h
    have h0 : env k = SendOutcome.ok := by
      have := h 0 (Nat.succ_pos m)
      simpa using this
    have hrest : ∀ j, j < m → env (k + 1 + j) = SendOutcome.ok := by
      intro j hj
      have hc := h (j + 1) (Nat.succ_lt_succ hj)
      have e : k + (j + 1) = k + 1 + j := by omega
      rw [e] at hc
      exact hc
    have hrec := ih (k + 1) hrest
    simp [send_loop, h0, hrec]

theorem send_loop_first_err (env : Nat → SendOutcome) :
    ∀ m n k, m < n → (∀ j, j < m → env (k + j) = SendOutcome.ok) →
      ((env (k + m) = SendOutcome.sockErr →
        send_loop env k n = (m, Except.ok ())) ∧
       (env (k + m) = SendOutcome.otherErr →
        send_loop env k n = (m, Except.error PyExn.otherExn))) := by
  intro m
  induction m with
  | zero =>
    intro n k hn _
    cases n with
    | zero => omega
    | succ n' =>
      constructor <;> intro he <;> rw [Nat.add_zero] at he <;> simp [send_loop, he]
  | succ m' ih =>
    intro n k hn h
    cases n with
    | zero => omega
    | succ n' =>
      have h0 : env k = SendOutcome.ok := by
        have := h 0 (Nat.succ_pos m')
        simpa using this
      have hrest : ∀ j, j < m' → env (k + 1 + j) = SendOutcome.ok := by
        intro j hj
        have hc := h (j + 1) (Nat.succ_lt_succ hj)
        have e : k + (j + 1) = k + 1 + j := by omega
        rw [e] at hc
        exact hc
      have hm : m' < n' := by omega
      have hrec := ih n' (k + 1) hm hrest
      have e2 : k + (m' + 1) = k + 1 + m' := by omega
      constructor <;> intro he <;> rw [e2] at he
      · have hr := hrec.1 he
        simp [send_loop, h0, hr]
      · have hr := hrec.2 he
        simp [send_loop, h0, hr]

theorem send_receive_loop_eq (env : Nat → SendOutcome) :
    ∀ n k, send_receive_loop env k n = send_loop env k n := by
  intro n
  induction n with
  | zero => intro k; rfl
  | succ m ih =>
    intro k
    cases henv : env k <;> simp [send_loop, send_receive_loop, henv, ih (k + 1)]

/-! ## Claim theorems -/

/-- Claim C1: on a `PacketSender` whose background worker is already
active, `start_sending` with any non-`None` packet and any interval
raises the sender-state error and leaves the sender unchanged:
`thread_send`, `thread_active` and `stop_signal` keep their values and
no second worker is recorded. -/
theorem start_sending_when_active_raises {P : Type} (s : PacketSender P)
    (pkt : P) (interval : Nat) (h : s.thread_active = true) :
    PacketSender.start_sending s (some pkt) interval =
      (s, Except.error (PyExn.packetSenderError PacketSenderError.activeThread)) := by
  simp [PacketSender.start_sending, h]

theorem start_sending_when_active_raises_witness :
    PacketSender.start_sending sender_active_example (some 9) 2 =
      (sender_active_example,
        Except.error (PyExn.packetSenderError PacketSenderError.activeThread)) :=
  start_sending_when_active_raises sender_active_example 9 2 rfl

/-- Claim C2: from an idle sender, `start_sending(p, i)` succeeds, the
following `stop_sending()` succeeds and leaves `thread_active` false,
the worker handle unset and the stop signal cleared, and from that
state `start_sending` succeeds again. -/
theorem start_stop_restores_idle {P : Type} (s : PacketSender P)
    (pkt pkt2 : P) (i i2 : Nat) (h : s.thread_active = false) :
    (PacketSender.start_sending s (some pkt) i).2 = Except.ok () ∧
    (PacketSender.stop_sending (PacketSender.start_sending s (some pkt) i).1 false).2 =
      Except.ok () ∧
    (PacketSender.stop_sending (PacketSender.start_sending s (some pkt) i).1 false).1.thread_active =
      false ∧
    (PacketSender.stop_sending (PacketSender.start_sending s (some pkt) i).1 false).1.thread_send =
      none ∧
    (PacketSender.stop_sending (PacketSender.start_sending s (some pkt) i).1 false).1.stop_signal =
      false ∧
    (PacketSender.start_sending
      (PacketSender.stop_sending (PacketSender.start_sending s (some pkt) i).1 false).1
      (some pkt2) i2).2 = Except.ok () := by
  simp [PacketSender.start_sending, PacketSender.stop_sending, h]

theorem start_stop_restores_idle_witness :
    (PacketSender.start_sending (PacketSender.mkSender Nat "eth0") (some 1) 2).2 =
      Except.ok () ∧
    (PacketSender.stop_sending
      (PacketSender.start_sending (PacketSender.mkSender Nat "eth0") (some 1) 2).1 false).2 =
      Except.ok () ∧
    (PacketSender.stop_sending
      (PacketSender.start_sending (PacketSender.mkSender Nat "eth0") (some 1) 2).1 false).1.thread_active =
      false ∧
    (PacketSender.stop_sending
      (PacketSender.start_sending (PacketSender.mkSender Nat "eth0") (some 1) 2).1 false).1.thread_send =
      none ∧
    (PacketSender.stop_sending
      (PacketSender.start_sending (PacketSender.mkSender Nat "eth0") (some 1) 2).1 false).1.stop_signal =
      false ∧
    (PacketSender.start_sending
      (PacketSender.stop_sending
        (PacketSender.start_sending (PacketSender.mkSender Nat "eth0") (some 1) 2).1 false).1
      (some 3) 4).2 = Except.ok () :=
  start_stop_restores_idle (PacketSender.mkSender Nat "eth0") 1 3 2 4 rfl

/-- Claim C3: on an idle sender, `stop_sending(ignore_status=False)`
raises the sender-state error and `stop_sending(ignore_status=True)`
returns normally; in both cases every field is unchanged. -/
theorem stop_sending_idle {P : Type} (s : PacketSender P)
    (h : s.thread_active = false) :
    PacketSender.stop_sending s false =
      (s, Except.error (PyExn.packetSenderError PacketSenderError.noActiveThread)) ∧
    PacketSender.stop_sending s true = (s, Except.ok ()) := by
  constructor <;> simp [PacketSender.stop_sending, h]

theorem stop_sending_idle_witness :
    PacketSender.stop_sending (PacketSender.mkSender Nat "eth0") false =
      (PacketSender.mkSender Nat "eth0",
        Except.error (PyExn.packetSenderError PacketSenderError.noActiveThread)) ∧
    PacketSender.stop_sending (PacketSender.mkSender Nat "eth0") true =
      (PacketSender.mkSender Nat "eth0", Except.ok ()) :=
  stop_sending_idle (PacketSender.mkSender Nat "eth0") rfl

/-- Claim C4: for every sender, every count `n` (including 0) and every
interval, `send_ntimes(None, n, i)` and `send_receive_ntimes(None, n, i)`
raise the missing-packet error with zero packets transmitted. -/
theorem send_none_packet_raises {P : Type} (env : Nat → SendOutcome)
    (s : PacketSender P) (n i : Nat) :
    PacketSender.send_ntimes env s none n i =
      (s, 0, Except.error (PyExn.packetSenderError PacketSenderError.noPacket)) ∧
    PacketSender.send_receive_ntimes env s none n i =
      (s, 0, Except.error (PyExn.packetSenderError PacketSenderError.noPacket)) :=
  ⟨rfl, rfl⟩

/-- Claim C5: with a non-`None` packet, `send_ntimes` and
`send_receive_ntimes` transmit exactly `n` packets when every iteration
succeeds; when `socket.error` is first raised at iteration `k` the
remaining iterations are aborted with no exception to the caller, `k`
packets transmitted, and the sender record unchanged in every case. -/
theorem send_ntimes_counts {P : Type} (env : Nat → SendOutcome)
    (s : PacketSender P) (pkt : P) (n i k : Nat) :
    ((∀ j, j < n → env j = SendOutcome.ok) →
      PacketSender.send_ntimes env s (some pkt) n i = (s, n, Except.ok ()) ∧
      PacketSender.send_receive_ntimes env s (some pkt) n i = (s, n, Except.ok ())) ∧
    (k < n → (∀ j, j < k → env j = SendOutcome.ok) → env k = SendOutcome.sockErr →
      PacketSender.send_ntimes env s (some pkt) n i = (s, k, Except.ok ()) ∧
      PacketSender.send_receive_ntimes env s (some pkt) n i = (s, k, Except.ok ())) := by
  constructor
  · intro hall
    have h0 : ∀ j, j < n → env (0 + j) = SendOutcome.ok := by
      intro j hj; simpa using hall j hj
    have hl := send_loop_all_ok env n 0 h0
    constructor <;>
      simp [PacketSender.send_ntimes, PacketSender.send_receive_ntimes,
        send_receive_loop_eq, hl]
  · intro hk hok he
    have h0 : ∀ j, j < k → env (0 + j) = SendOutcome.ok := by
      intro j hj; simpa using hok j hj
    have he0 : env (0 + k) = SendOutcome.sockErr := by simpa using he
    have hl := (send_loop_first_err env k n 0 hk h0).1 he0
    constructor <;>
      simp [PacketSender.send_ntimes, PacketSender.send_receive_ntimes,
        send_receive_loop_eq, hl]

theorem send_ntimes_counts_witness :
    PacketSender.send_ntimes env_all_ok (PacketSender.mkSender Nat "eth0") (some 7) 3 1 =
      (PacketSender.mkSender Nat "eth0", 3, Except.ok ()) ∧
    PacketSender.send_ntimes env_sock_at2 (PacketSender.mkSender Nat "eth0") (some 7) 5 1 =
      (PacketSender.mkSender Nat "eth0", 2, Except.ok ()) := by
  have h1 := send_ntimes_counts env_all_ok (PacketSender.mkSender Nat "eth0") 7 3 1 0
  have h2 := send_ntimes_counts env_sock_at2 (PacketSender.mkSender Nat "eth0") 7 5 1 2
  refine ⟨(h1.1 ?_).1, (h2.2 (by omega) ?_ rfl).1⟩
  · intro j _; rfl
  · intro j hj
    simp [env_sock_at2, hj]

/-- Claim C6: one iteration of the worker loop polls the stop signal
first and terminates in `stoppedSignal` without transmitting when it is
set; with the signal clear it transmits once and continues on success,
and terminates in `stoppedExn` with no retry when the transmit or the
sleep raises; the terminal states are exactly `stoppedSignal` and
`stoppedExn`, so no transmission follows an observed stop signal. -/
theorem thread_run_step_spec (env : Nat → Bool × WorkerOutcome) (t : Nat) :
    ((env t).1 = true →
      ThreadSendPacket.run_step env (RunState.running t) =
        some (RunState.stoppedSignal t, [])) ∧
    ((env t).1 = false → (env t).2 = WorkerOutcome.ok →
      ThreadSendPacket.run_step env (RunState.running t) =
        some (RunState.running (t + 1), [RunEvent.send])) ∧
    ((env t).1 = false → (env t).2 = WorkerOutcome.exnInSend →
      ThreadSendPacket.run_step env (RunState.running t) =
        some (RunState.stoppedExn t, [])) ∧
    ((env t).1 = false → (env t).2 = WorkerOutcome.exnInSleep →
      ThreadSendPacket.run_step env (RunState.running t) =
        some (RunState.stoppedExn t, [RunEvent.send])) ∧
    (∀ st : RunState, ThreadSendPacket.run_step env st = none ↔
      ((∃ u, st = RunState.stoppedSignal u) ∨ (∃ u, st = RunState.stoppedExn u))) := by
  rcases henv : env t with ⟨sig, out⟩
  refine ⟨?_, ?_, ?_, ?_, ?_⟩
  · intro h1
    simp at h1
    subst h1
    simp [ThreadSendPacket.run_step, henv]
  · intro h1 h2
    simp at h1 h2
    subst h1
    subst h2
    simp [ThreadSendPacket.run_step, henv]
  · intro h1 h2
    simp at h1 h2
    subst h1
    subst h2
    simp [ThreadSendPacket.run_step, henv]
  · intro h1 h2
    simp at h1 h2
    subst h1
    subst h2
    simp [ThreadSendPacket.run_step, henv]
  · intro st
    cases st with
    | running u =>
      constructor
      · intro hnone
        exfalso
        rcases hw : env u with ⟨sg, ot⟩
        cases sg <;> cases ot <;> simp [ThreadSendPacket.run_step, hw] at hnone
      · rintro (⟨u', hu⟩ | ⟨u', hu⟩) <;> simp at hu
    | stoppedSignal u => simp [ThreadSendPacket.run_step]
    | stoppedExn u => simp [ThreadSendPacket.run_step]

theorem thread_run_step_spec_witness :
    ThreadSendPacket.run_step worker_env_example (RunState.running 0) =
      some (RunState.stoppedSignal 0, []) ∧
    ThreadSendPacket.run_step worker_env_example (RunState.running 1) =
      some (RunState.running 2, [RunEvent.send]) ∧
    ThreadSendPacket.run_step worker_env_example (RunState.running 2) =
      some (RunState.stoppedExn 2, []) ∧
    ThreadSendPacket.run_step worker_env_example (RunState.running 3) =
      some (RunState.stoppedExn 3, [RunEvent.send]) ∧
    ThreadSendPacket.run_step worker_env_example (RunState.stoppedSignal 0) = none := by
  have h0 := thread_run_step_spec worker_env_example 0
  have h1 := thread_run_step_spec worker_env_example 1
  have h2 := thread_run_step_spec worker_env_example 2
  have h3 := thread_run_step_spec worker_env_example 3
  exact ⟨h0.1 rfl, h1.2.1 rfl rfl, h2.2.2.1 rfl rfl, h3.2.2.2.1 rfl rfl,
    (h0.2.2.2.2 (RunState.stoppedSignal 0)).2 (Or.inl ⟨0, rfl⟩)⟩

/-- Claim C10: in `send_ntimes` and `send_receive_ntimes` only
`socket.error` is caught (aborting the loop, returning normally); any
other exception first raised at iteration `k` propagates to the caller;
the worker loop instead catches every exception, ending in its
`stoppedExn` state; the sender record is unchanged in every case. -/
theorem exception_scoping {P : Type} (env : Nat → SendOutcome)
    (s : PacketSender P) (pkt : P) (n i k : Nat)
    (hk : k < n) (hok : ∀ j, j < k → env j = SendOutcome.ok) :
    (env k = SendOutcome.otherErr →
      PacketSender.send_ntimes env s (some pkt) n i =
        (s, k, Except.error PyExn.otherExn) ∧
      PacketSender.send_receive_ntimes env s (some pkt) n i =
        (s, k, Except.error PyExn.otherExn)) ∧
    (env k = SendOutcome.sockErr →
      PacketSender.send_ntimes env s (some pkt) n i = (s, k, Except.ok ()) ∧
      PacketSender.send_receive_ntimes env s (some pkt) n i = (s, k, Except.ok ())) ∧
    (∀ wenv : Nat → Bool × WorkerOutcome, ∀ t : Nat,
      (wenv t).1 = false → (wenv t).2 ≠ WorkerOutcome.ok →
      ∃ evs, ThreadSendPacket.run_step wenv (RunState.running t) =
        some (RunState.stoppedExn t, evs)) := by
  have h0 : ∀ j, j < k → env (0 + j) = SendOutcome.ok := by
    intro j hj; simpa using hok j hj
  refine ⟨?_, ?_, ?_⟩
  · intro he
    have he0 : env (0 + k) = SendOutcome.otherErr := by simpa using he
    have hl := (send_loop_first_err env k n 0 hk h0).2 he0
    constructor <;>
      simp [PacketSender.send_ntimes, PacketSender.send_receive_ntimes,
        send_receive_loop_eq, hl]
  · intro he
    have he0 : env (0 + k) = SendOutcome.sockErr := by simpa using he
    have hl := (send_loop_first_err env k n 0 hk h0).1 he0
    constructor <;>
      simp [PacketSender.send_ntimes, PacketSender.send_receive_ntimes,
        send_receive_loop_eq, hl]
  · intro wenv t h1 h2
    rcases hw : wenv t with ⟨sig, out⟩
    rw [hw] at h1 h2
    simp at h1 h2
    subst h1
    cases out with
    | ok => exact absurd rfl h2
    | exnInSend => exact ⟨[], by simp [ThreadSendPacket.run_step, hw]⟩
    | exnInSleep => exact ⟨[RunEvent.send], by simp [ThreadSendPacket.run_step, hw]⟩

theorem exception_scoping_witness :
    (PacketSender.send_ntimes env_other_at2 (PacketSender.mkSender Nat "eth0") (some 7) 5 1 =
      (PacketSender.mkSender Nat "eth0", 2, Except.error PyExn.otherExn)) ∧
    (PacketSender.send_ntimes env_sock_at1 (PacketSender.mkSender Nat "eth0") (some 7) 4 1 =
      (PacketSender.mkSender Nat "eth0", 1, Except.ok ())) ∧
    (∃ evs, ThreadSendPacket.run_step worker_env_exn (RunState.running 0) =
      some (RunState.stoppedExn 0, evs)) := by
  have h1 := exception_scoping env_other_at2 (PacketSender.mkSender Nat "eth0") 7 5 1 2
    (by omega) (fun j hj => by simp [env_other_at2, hj])
  have h2 := exception_scoping env_sock_at1 (PacketSender.mkSender Nat "eth0") 7 4 1 1
    (by omega) (fun j hj => by simp [env_sock_at1, hj])
  exact ⟨(h1.1 rfl).1, (h2.2.1 rfl).1,
    h1.2.2 worker_env_exn 0 rfl (by decide)⟩

/-- Claim C7: `generate()` on the scenario `ArpGenerator` yields an
Ethernet/ARP packet with op `who-has`, `hwsrc` the source mac, `psrc`
`10.0.0.1`, `pdst` `10.0.0.2`, `hwdst` all-zero, Ethernet source the
source mac and Ethernet destination the broadcast address. -/
theorem arp_generate_scenario :
    (arp_gen_example.generate "who-has" none none none none none).2.arp.op = "who-has" ∧
    (arp_gen_example.generate "who-has" none none none none none).2.arp.hwsrc =
      "aa:bb:cc:dd:ee:ff" ∧
    (arp_gen_example.generate "who-has" none none none none none).2.arp.psrc = "10.0.0.1" ∧
    (arp_gen_example.generate "who-has" none none none none none).2.arp.pdst = "10.0.0.2" ∧
    (arp_gen_example.generate "who-has" none none none none none).2.arp.hwdst =
      "00:00:00:00:00:00" ∧
    (arp_gen_example.generate "who-has" none none none none none).2.ether.src =
      "aa:bb:cc:dd:ee:ff" ∧
    (arp_gen_example.generate "who-has" none none none none none).2.ether.dst =
      "ff:ff:ff:ff:ff:ff" :=
  ⟨rfl, rfl, rfl, rfl, rfl, rfl, rfl⟩

/-- Claim C8: for every `ArpGenerator` and `DhcpOfferGenerator`, two
`generate()` calls with no overrides yield identical packets, and each
call changes the instance only by overwriting the cached `packet`
field. -/
theorem generate_deterministic (g : ArpGenerator) (d : DhcpOfferGenerator) :
    ((g.generate "who-has" none none none none none).1.generate
      "who-has" none none none none none).2 =
      (g.generate "who-has" none none none none none).2 ∧
    (g.generate "who-has" none none none none none).1 =
      { g with packet := some (g.generate "who-has" none none none none none).2 } ∧
    ((g.generate "who-has" none none none none none).1.generate
      "who-has" none none none none none).1 =
      (g.generate "who-has" none none none none none).1 ∧
    ((d.generate none none).1.generate none none).2 = (d.generate none none).2 ∧
    (d.generate none none).1 = { d with packet := some (d.generate none none).2 } ∧
    ((d.generate none none).1.generate none none).1 = (d.generate none none).1 :=
  ⟨rfl, rfl, rfl, rfl, rfl, rfl⟩

theorem rand_str_stub_length (n : Nat) : (rand_str_stub n).length = n := by
  simp [rand_str_stub, String.length]

theorem truthyNat_none : truthyNat none = false := rfl

theorem truthyNat_some (n : Nat) : truthyNat (some n) = (n != 0) := rfl

theorem truthyStr_none : truthyStr none = false := rfl

theorem truthyStr_some (s : String) : truthyStr (some s) = (s != "") := rfl

/-- Claim C9 counterexample: with an explicit `length=0` the helper
does not return a 0-length string; Python truthiness sends `length=0`
down the default branch, which yields the 8-character minimum. -/
theorem generate_random_password_explicit_len_cex :
    ¬ ((generate_random_password rand_str_stub rand_str_stub
        (some "wpa2") (some 0) none).length = 0) := by
  decide

/-- Claim C9 as amended: with `security_mode` a non-empty string whose
lower-casing is `wep` and no explicit length, the result has the WEP
default length; with an explicit positive `length=N` the result has
length `N` regardless of `security_mode`; with neither, the result has
the minimum WPA-PSK length (an explicit `length=0` is falsy and falls
back to the defaults). -/
theorem generate_random_password_lengths (rhex rascii : Nat → String)
    (hh : ∀ n, (rhex n).length = n) (ha : ∀ n, (rascii n).length = n)
    (mode : String) (hx : Option Nat) :
    (mode ≠ "" → str_lower mode = WEP_STRING →
      (generate_random_password rhex rascii (some mode) none hx).length =
        WEP_DEFAULT_STR_LENGTH) ∧
    (∀ N, 1 ≤ N → ∀ sm : Option String,
      (generate_random_password rhex rascii sm (some N) hx).length = N) ∧
    (generate_random_password rhex rascii none none hx).length =
      MIN_WPA_PSK_LENGTH := by
  refine ⟨?_, ?_, ?_⟩
  · intro hne hlow
    cases hxc : truthyNat hx <;>
      simp [generate_random_password, hxc, truthyNat_none, truthyStr_some,
        hne, hlow, hh, ha]
  · intro N hN sm
    have hN0 : N ≠ 0 := by omega
    cases hxc : truthyNat hx <;>
      simp [generate_random_password, hxc, truthyNat_some, hN0, hh, ha]
  · cases hxc : truthyNat hx <;>
      simp [generate_random_password, hxc, truthyNat_none, truthyStr_none, hh, ha]

theorem generate_random_password_lengths_witness :
    (generate_random_password rand_str_stub rand_str_stub
      (some "WEP") none none).length = WEP_DEFAULT_STR_LENGTH ∧
    (generate_random_password rand_str_stub rand_str_stub
      (some "wpa2") (some 5) none).length = 5 ∧
    (generate_random_password rand_str_stub rand_str_stub
      none none none).length = MIN_WPA_PSK_LENGTH := by
  have h := generate_random_password_lengths rand_str_stub rand_str_stub
    rand_str_stub_length rand_str_stub_length "WEP" none
  exact ⟨h.1 (by decide) (by decide), h.2.1 5 (by decide) (some "wpa2"), h.2.2⟩

end Acts
